import Mathlib

/-!
Verification development for the voice-rag real-estate backend
(`backend/main.py`, `backend/main_kuzu.py`, `backend/app.py`).

The Python code is shallowly embedded: external collaborators (the
language-model provider, the embedding provider, the SQLite store and the
Kuzu graph store) are oracles supplied as structure fields; a Python
exception is `Except.error msg`; fallible Python code is a value of
`Except String α`, and a `try`/`except` block is an explicit `match` on
that value.
-/

namespace VoiceRag

/-- Python exceptions: `.error e` is a raised exception whose string
rendering is `e`. -/
abbrev Exc := Except String

/-! ### Messages (`langchain_core.messages`)

A tool-call request as carried by an `AIMessage`: tool name, the single
string argument of the tool (`query` for `run_sql`, `question` for
`query_real_estate_database`), and the call identifier. -/

structure ToolCall where
  name : String
  args : String
  id : String
deriving DecidableEq, Repr

/-- One conversation turn: `HumanMessage`, `AIMessage` (with its list of
tool-call requests) or `ToolMessage` (content plus the `tool_call_id` it
answers). -/
inductive Msg where
  | human : String → Msg
  | ai : String → List ToolCall → Msg
  | tool : String → String → Msg
deriving DecidableEq, Repr

/-- The `.content` attribute of a message. -/
def Msg.content : Msg → String
  | .human c => c
  | .ai c _ => c
  | .tool c _ => c

/-! ## `backend/main.py` — the SQLite agent -/

namespace Main

/-- The SQLite engine as seen by `run_sql` and `call_tool`: each
operation of the `sqlite3` API may raise.  `execute q` yields
`some rows` when the cursor has a `description` (a projection, with
`fetchall()` folded in) and `none` when it does not (a mutation).
`showRows` models Python `str()` applied to the fetched list of row
tuples.  `Row` is the type of one fetched row. -/
structure SqlEnv (Row : Type) where
  connect : Exc Unit
  execute : String → Exc (Option (List Row))
  commit : Exc Unit
  close : Exc Unit
  showRows : List Row → String

/-- What `run_sql` returns: either the fetched rows or a string
(the fixed confirmation, or a formatted error). -/
inductive RunSqlRes (Row : Type) where
  | rows : List Row → RunSqlRes Row
  | msg : String → RunSqlRes Row
deriving DecidableEq, Repr

/-- The body of the `try` block of `run_sql` (`main.py` lines 45-56):
connect, execute, fetch-or-commit, close, return. -/
def run_sqlTry (env : SqlEnv Row) (query : String) : Exc (RunSqlRes Row) := do
  let _ ← env.connect
  let d ← env.execute query
  match d with
  | some result => do
      let _ ← env.close
      pure (RunSqlRes.rows result)
  | none => do
      let _ ← env.commit
      let _ ← env.close
      pure (RunSqlRes.msg "Query executed successfully.")

/-- Embedding of `run_sql` (`main.py` lines 39-58): the `try` body with the
catch-all `except Exception as e: return f"Error executing query: {e}"`. -/
def run_sql (env : SqlEnv Row) (query : String) : RunSqlRes Row :=
  match run_sqlTry env query with
  | .ok r => r
  | .error e => RunSqlRes.msg ("Error executing query: " ++ e)

/-- The SQLite introspection API used by `get_db_schema`
(`main.py` lines 18-37): connecting, listing the tables from
`sqlite_master`, and `PRAGMA table_info` giving, for each table, the
(column name, declared type) pairs.  Each step may raise. -/
structure IntrospectEnv where
  connect : Exc Unit
  listTables : Exc (List String)
  tableInfo : String → Exc (List (String × String))

/-- One `  - name (type)` line of the schema rendering. -/
def schemaLine (col : String × String) : String :=
  "  - " ++ col.1 ++ " (" ++ col.2 ++ ")\n"

/-- Embedding of `get_db_schema` (`main.py` lines 18-37).  There is no `try`/`except`
in the source: every store exception propagates to the caller. -/
def get_db_schema (env : IntrospectEnv) : Exc String := do
  let _ ← env.connect
  let tables ← env.listTables
  let schema_str ← tables.foldlM (fun acc table => do
      let columns ← env.tableInfo table
      pure (acc ++ "Table \x27" ++ table ++ "\x27:\n" ++
        String.join (columns.map schemaLine))) "Database schema:\n"
  pure schema_str

/-- Python `str()` applied to the value `run_sql` returned: a list of
rows is rendered by the engine repr, a Python string is itself. -/
def strOfRes (env : SqlEnv Row) : RunSqlRes Row → String
  | .rows rs => env.showRows rs
  | .msg s => s

/-- Embedding of `call_tool` (`main.py` lines 91-108): take the last message first
tool-call request (`tool_calls[0]`), run `run_sql` if the name matches,
and append a `ToolMessage` keyed by the `id` of that request.  `none` models
the `IndexError`/`AttributeError` paths (no last message, last message
not an `AIMessage`, or an empty `tool_calls` list). -/
def call_tool (env : SqlEnv Row) (messages : List Msg) : Option Msg :=
  match messages.getLast? with
  | some (Msg.ai _ (tool_call :: _)) =>
      let result : RunSqlRes Row :=
        if tool_call.name = "run_sql" then run_sql env tool_call.args
        else RunSqlRes.msg "Error: Unknown tool."
      some (Msg.tool (strOfRes env result) tool_call.id)
  | _ => none

/-- Embedding of `should_continue` (`main.py` lines 111-117): continue to the tool
node iff the last message carries at least one tool-call request. -/
def should_continue (messages : List Msg) : Bool :=
  match messages.getLast? with
  | some (Msg.ai _ tool_calls) => !tool_calls.isEmpty
  | _ => false

/-- Embedding of `call_model` (`main.py` lines 68-89 and `main_kuzu.py` lines
123-138): prepend the system instruction as a `HumanMessage`, invoke the
tool-bound model `llm` on the result, and append its response to the
state (`operator.add` on the `messages` field). -/
def call_model (llm : List Msg → Msg) (system_prompt : String)
    (messages : List Msg) : List Msg :=
  messages ++ [llm (Msg.human system_prompt :: messages)]

end Main

/-! ## Numeric semantics of the Similarity Resolver (`main_kuzu.py`) -/

/-- Dot product of two embedding vectors (`np.dot` on one matrix row). -/
noncomputable def dot : List ℝ → List ℝ → ℝ
  | [], _ => 0
  | _ :: _, [] => 0
  | x :: xs, y :: ys => x * y + dot xs ys

/-- Embedding of `np.linalg.norm`: the L2 norm, the square root of the sum of squares. -/
noncomputable def l2norm (v : List ℝ) : ℝ := Real.sqrt (dot v v)

/-- Cosine similarity as computed on line 81 of `main_kuzu.py`:
dot product divided by the product of the two L2 norms. -/
noncomputable def cosSim (v q : List ℝ) : ℝ := dot v q / (l2norm v * l2norm q)

/-- Embedding of `np.argmax`: the index of the first occurrence of the maximum value
(the documented numpy tie-breaking: "the indices corresponding to the
first occurrence are returned"), and 0 on an empty array. -/
def argmaxIdx {α : Type} [LinearOrder α] (l : List α) : ℕ :=
  match l.maximum with
  | none => 0
  | some m => l.indexOf m

theorem getElem_ne_of_lt_indexOf {α : Type} [DecidableEq α] {a : α} :
    ∀ {l : List α} {j : ℕ} (hj : j < l.length), j < l.indexOf a → l[j] ≠ a := by
  intro l
  induction l with
  | nil => intro j hj _; simp at hj
  | cons b t ih =>
      intro j hj hlt
      by_cases hba : b = a
      · rw [List.indexOf_cons_eq t hba] at hlt; omega
      · rw [List.indexOf_cons_ne t hba] at hlt
        match j with
        | 0 => simpa using hba
        | j + 1 =>
            have hj' : j < t.length := by simpa using hj
            simpa using ih hj' (by omega)

theorem argmaxIdx_eq_indexOf {α : Type} [LinearOrder α] {l : List α} {m : α}
    (hm : l.maximum = some m) : argmaxIdx l = l.indexOf m := by
  unfold argmaxIdx
  rw [hm]

theorem exists_maximum_of_ne_nil {α : Type} [LinearOrder α] {l : List α}
    (h : l ≠ []) : ∃ m, l.maximum = some m := by
  cases hmx : l.maximum with
  | bot => exact absurd (List.maximum_eq_none.1 hmx) h
  | coe m => exact ⟨m, rfl⟩

theorem argmaxIdx_lt_length {α : Type} [LinearOrder α] {l : List α}
    (h : l ≠ []) : argmaxIdx l < l.length := by
  obtain ⟨m, hm⟩ := exists_maximum_of_ne_nil h
  rw [argmaxIdx_eq_indexOf hm]
  exact List.indexOf_lt_length.2 (List.maximum_mem hm)

theorem getElem_argmaxIdx_eq {α : Type} [LinearOrder α] {l : List α} {m : α}
    (hm : l.maximum = some m) (h : l ≠ []) :
    l.get ⟨argmaxIdx l, argmaxIdx_lt_length h⟩ = m := by
  have he : argmaxIdx l = l.indexOf m := argmaxIdx_eq_indexOf hm
  have hilt : l.indexOf m < l.length := List.indexOf_lt_length.2 (List.maximum_mem hm)
  simp only [he]
  exact List.getElem_indexOf hilt

theorem getElem_le_getElem_argmaxIdx {α : Type} [LinearOrder α] {l : List α}
    {j : ℕ} (hj : j < l.length) (h : l ≠ []) :
    l.get ⟨j, hj⟩ ≤ l.get ⟨argmaxIdx l, argmaxIdx_lt_length h⟩ := by
  obtain ⟨m, hm⟩ := exists_maximum_of_ne_nil h
  rw [getElem_argmaxIdx_eq hm h]
  exact List.le_maximum_of_mem (l.getElem_mem hj) hm

theorem getElem_lt_getElem_argmaxIdx {α : Type} [LinearOrder α] {l : List α}
    {j : ℕ} (hj : j < l.length) (h : l ≠ []) (hlt : j < argmaxIdx l) :
    l.get ⟨j, hj⟩ < l.get ⟨argmaxIdx l, argmaxIdx_lt_length h⟩ := by
  refine lt_of_le_of_ne (getElem_le_getElem_argmaxIdx hj h) ?_
  obtain ⟨m, hm⟩ := exists_maximum_of_ne_nil h
  rw [getElem_argmaxIdx_eq hm h]
  rw [argmaxIdx_eq_indexOf hm] at hlt
  exact getElem_ne_of_lt_indexOf hj hlt

/-- Python substring test: `pat in hay`. -/
def strContains (hay pat : String) : Bool := decide (pat.toList <:+: hay.toList)

/-! ## `backend/main_kuzu.py` — the Kuzu graph agent -/

namespace MainKuzu

/-- A tabular query result (`pandas.DataFrame`), column-oriented:
each entry is a column name with the rendered values of that column. -/
abbrev Table := List (String × List String)

/-- Number of rows of a column-oriented table. -/
def numRows (t : Table) : ℕ := (t.map (fun c => c.2.length)).foldr max 0

/-- Embedding of `DataFrame.to_markdown(index=False)`: a textual rendering with one
header line of column names followed by one line per row.  The claims
do not depend on the exact markdown syntax, only on which columns are
rendered. -/
def toMarkdown (t : Table) : String :=
  String.intercalate " | " (t.map Prod.fst) ++ "\n" ++
    String.intercalate "\n" ((List.range (numRows t)).map (fun i =>
      String.intercalate " | " (t.map (fun c => c.2.getD i ""))))

/-- Lines 91-92 of `main_kuzu.py`: drop the `l.address_embedding`
column when it is present (the membership guard plus
`DataFrame.drop(columns=[...])` is exactly a filter on column names). -/
def dropEmbeddingCol (t : Table) : Table :=
  t.filter (fun c => !(c.1 == "l.address_embedding"))

/-- The external collaborators of `query_real_estate_database`, each of
which may raise: `router` is the `logic_llm.invoke(router_prompt)` call
(applied to the full router prompt, returning the `.content` string);
`openStore` is `kuzu.Database` + `kuzu.Connection` (lines 65-66);
`fetchListings` is the `MATCH (l:Listing) RETURN l.address,
l.address_embedding` query together with `get_as_df` and the
`json.loads` parse of each embedding (lines 73-77); `embed` is
`client.embeddings.create` on the question; `targeted` is the
parameterised `MATCH ... WHERE l.address = $address_filter RETURN l.*`
query as a table; `schemaIntro` is the `get_db_schema(DB_PATH)` call;
`genQuery` is the Cypher-generating `logic_llm.invoke` call;
`runQuery` executes a generated Cypher string; `chat` is the plain
conversational `logic_llm.invoke` call. -/
structure ToolEnv where
  router : String → Exc String
  openStore : Exc Unit
  fetchListings : Exc (List (String × List ℝ))
  embed : String → Exc (List ℝ)
  targeted : String → Exc Table
  schemaIntro : Exc String
  genQuery : String → Exc String
  runQuery : String → Exc Table
  chat : String → Exc String

/-- The router classification prompt (lines 54-61), with the question
interpolated. -/
def routerPrompt (question : String) : String :=
  "\n    You are a classification model. Your task is to determine if the following user question is asking about a specific street address or is a general query requiring a database search or if it just normal conversational context like Hi, Hello, Thank You, or Goodbye.\n    Scale to questions unrelated to real estate to NORMAL_QUERY.\n    Answer with only \x27ADDRESS_SEARCH\x27 or \x27GENERAL_QUERY\x27 or \x27NORMAL_QUERY\x27.\n\n    Question: " ++ question ++ "\n    Classification:\n    "

/-- The Cypher-generation prompt (line 100). -/
def cypherGenPrompt (db_schema question : String) : String :=
  "Schema: " ++ db_schema ++ "\nQuestion: " ++ question ++
    "\nGenerate a Cypher query. Respond with only the query."

/-- Line 82 of `main_kuzu.py`: `addr_df.iloc[np.argmax(similarities)]
[l.address]` where `similarities` is the vector of cosine
similarities of each stored embedding with the question embedding. -/
noncomputable def best_match_address (cands : List (String × List ℝ))
    (q : List ℝ) : String :=
  (cands.getD (argmaxIdx (cands.map (fun c => cosSim c.2 q))) ("", [])).1

/-- The ADDRESS_SEARCH branch (lines 70-94), inside the `try`. -/
noncomputable def addressBranch (env : ToolEnv) (question : String) :
    Exc (Option String) := do
  let cands ← env.fetchListings
  if cands.isEmpty then
    pure (some "No listings found.")
  else do
    let query_embedding ← env.embed question
    let result ← env.targeted (best_match_address cands query_embedding)
    pure (some (toMarkdown (dropEmbeddingCol result)))

/-- The GENERAL_QUERY branch (lines 97-105), inside the `try`. -/
def generalBranch (env : ToolEnv) (question : String) : Exc (Option String) := do
  let db_schema ← env.schemaIntro
  let cypher_query := (← env.genQuery (cypherGenPrompt db_schema question)).trim
  let result ← env.runQuery cypher_query
  pure (some (toMarkdown result))

/-- The NORMAL_QUERY branch (lines 108-111), inside the `try`. -/
def normalBranch (env : ToolEnv) (question : String) : Exc (Option String) := do
  let result ← env.chat question
  pure (some result.trim)

/-- The body of the `try` block (lines 68-111): substring dispatch on
the router output; when no token matches, the Python function falls
through and returns `None`. -/
noncomputable def dispatchBody (env : ToolEnv) (question router_response : String) :
    Exc (Option String) :=
  if strContains router_response "ADDRESS_SEARCH" then addressBranch env question
  else if strContains router_response "GENERAL_QUERY" then generalBranch env question
  else if strContains router_response "NORMAL_QUERY" then normalBranch env question
  else pure none

/-- Embedding of `query_real_estate_database` (lines 45-115).  The router call and
the store open (lines 62-66) happen BEFORE the `try` block, so their
exceptions propagate; exceptions inside `dispatchBody` are caught by
`except Exception as e: return f"An error occurred within the tool: {e}"`. -/
noncomputable def query_real_estate_database (env : ToolEnv) (question : String) :
    Exc (Option String) := do
  let router_response ← env.router (routerPrompt question)
  let _ ← env.openStore
  match dispatchBody env question router_response with
  | .ok r => .ok r
  | .error e => .ok (some ("An error occurred within the tool: " ++ e))

/-- Python `str()` applied to the value the tool returned:
`str(None)` is `"None"`, `str` of a string is itself. -/
def pyStr : Option String → String
  | some s => s
  | none => "None"

/-- Embedding of `call_tool` (`main_kuzu.py` lines 141-146): take the last message
first tool-call request, run the composite tool on its `args`, and
append a `ToolMessage` keyed by the `id` of that request. -/
noncomputable def call_tool (env : ToolEnv) (messages : List Msg) :
    Exc (Option Msg) :=
  match messages.getLast? with
  | some (Msg.ai _ (tool_call :: _)) => do
      let result ← query_real_estate_database env tool_call.args
      pure (some (Msg.tool (pyStr result) tool_call.id))
  | _ => pure none

/-- The Kuzu introspection API used by `get_db_schema`
(`main_kuzu.py` lines 24-43): opening the database/connection, listing
node tables, listing the properties of each node table, listing
relationship tables.  Each step may raise. -/
structure IntrospectEnv where
  openDb : Exc Unit
  nodeTables : Exc (List String)
  nodeProps : String → Exc (List (String × String))
  relTables : Exc (List String)

/-- Embedding of `get_db_schema` (`main_kuzu.py` lines 24-43).  There is no
`try`/`except` in the source: every store exception propagates. -/
def get_db_schema (env : IntrospectEnv) : Exc String := do
  let _ ← env.openDb
  let node_tables ← env.nodeTables
  let s1 ← node_tables.foldlM (fun acc table_name => do
      let properties ← env.nodeProps table_name
      pure (acc ++ "- **" ++ table_name ++ "**:\n" ++
        String.join (properties.map (fun p => "  - " ++ p.1 ++ " (" ++ p.2 ++ ")\n"))))
    ("Kuzu Graph Database Schema:\n## Node Tables:\n")
  let rel_tables ← env.relTables
  pure (s1 ++ "\n## Relationship Tables:\n" ++
    String.join (rel_tables.map (fun t => "- **" ++ t ++ "**\n")))

/-- Embedding of `should_continue` (`main_kuzu.py` lines 148-152): identical to the
SQLite agent version. -/
def should_continue (messages : List Msg) : Bool :=
  Main.should_continue messages

end MainKuzu

/-! ## The Agent Loop driver

The graph wiring is in the source (`graph.add_node`, `set_entry_point
"agent"`, the conditional edge through `should_continue`, and the edge
`execute_tool → agent`); the bounded execution itself is performed by
the external langgraph engine under the caller-supplied
`recursion_limit`. -/

/-- Outcome of one bounded run: the final message list together with
the number of node executions ("super-steps") performed. -/
inductive LoopOutcome where
  | finished : List Msg → ℕ → LoopOutcome
  | hitLimit : List Msg → ℕ → LoopOutcome
deriving DecidableEq, Repr

/-- The messages of an outcome. -/
def LoopOutcome.msgs : LoopOutcome → List Msg
  | .finished m _ => m
  | .hitLimit m _ => m

/-- The number of node executions of an outcome. -/
def LoopOutcome.steps : LoopOutcome → ℕ
  | .finished _ s => s
  | .hitLimit _ s => s

/-- Whether the run was aborted by the recursion limit. -/
def LoopOutcome.isHitLimit : LoopOutcome → Bool
  | .finished _ _ => false
  | .hitLimit _ _ => true

/-- Add `k` to the step count of an outcome. -/
def LoopOutcome.addSteps : LoopOutcome → ℕ → LoopOutcome
  | .finished m s, k => .finished m (s + k)
  | .hitLimit m s, k => .hitLimit m (s + k)

/-- Modelled from the spec: the bounded Decide/Act driver that the
external langgraph engine provides around the compiled graph of
`main.py`/`main_kuzu.py` (`app.stream(..., {"recursion_limit": N})`).
Execution starts at the `agent` node (`set_entry_point`), each node
execution consumes one unit of the recursion limit, the conditional
edge `should_continue` routes to `execute_tool` or to `END`
(§4.7: "bounded by a configured maximum number of Decide→Act
round-trips (recursion limit); exceeding it is a fatal condition ...
the loop must stop and surface whatever partial state exists rather
than spin indefinitely").  `agent` and `toolNode` are the two node
functions on the message state. -/
def runLoopAux (agent toolNode : List Msg → List Msg) :
    ℕ → List Msg → LoopOutcome
  | 0, messages => .hitLimit messages 0
  | 1, messages =>
      let m1 := agent messages
      if Main.should_continue m1 then .hitLimit m1 1 else .finished m1 1
  | fuel + 2, messages =>
      let m1 := agent messages
      if Main.should_continue m1 then
        (runLoopAux agent toolNode fuel (toolNode m1)).addSteps 2
      else .finished m1 1

/-- Modelled from the spec: one bounded run with the configured
recursion limit. -/
def runLoop (agent toolNode : List Msg → List Msg) (recursion_limit : ℕ)
    (messages : List Msg) : LoopOutcome :=
  runLoopAux agent toolNode recursion_limit messages

/-! ## `backend/app.py` — the Response Aggregator (`/chat`) -/

namespace AppPy

/-- One entry of the JSON conversation history: a role string and a
content string (`Dict[str, str]`). -/
structure RoleMsg where
  role : String
  content : String
deriving DecidableEq, Repr

/-- Lines 118-123 of `app.py`: skip the first history entry
(`request.conversation[1:]`), turn `user` entries into `HumanMessage`s
and `assistant` entries into `AIMessage`s, and silently drop every
other role, preserving order. -/
def convertMessages (conversation : List RoleMsg) : List Msg :=
  (conversation.drop 1).filterMap (fun m =>
    if m.role = "user" then some (Msg.human m.content)
    else if m.role = "assistant" then some (Msg.ai m.content [])
    else none)

/-- The collaborators of the `/chat` pipeline, each of which may raise:
the streamed and the final run of the Kuzu agent loop, the streamed and
the final run of the SQLite agent loop (the `invoke` calls yield the
message list of the final state), and the reconciliation model call
(`llm.invoke`, yielding the `.content` string). -/
structure ChatEnv where
  kuzuStream : List Msg → Exc Unit
  kuzuInvoke : List Msg → Exc (List Msg)
  sqliteStream : List Msg → Exc Unit
  sqliteInvoke : List Msg → Exc (List Msg)
  reconcile : List Msg → Exc String

/-- Lines 132 and 141 of `app.py`: the final answer text of one inner
loop — the content of the last message, or the fixed sentinel when the
loop produced no messages. -/
def answerOf (msgs : List Msg) : String :=
  match msgs.getLast? with
  | some m => m.content
  | none => "No response generated."

/-- The reconciliation prompt (line 142), with the new message and both
loop answers interpolated. -/
def reconcilePrompt (new_message kuzu_response sqlite_response : String) : String :=
  "Answer " ++ new_message ++
    " using the following context generated from two models. Using Kuzu DB, the response is: " ++
    kuzu_response ++ " and using SQLite DB, the response is: " ++ sqlite_response ++
    ". Compile the answers and return a single response. "

/-- The body of the `try` block of `chat_with_llm` (lines 124-145):
stream and invoke the Kuzu loop, stream and invoke the SQLite loop,
then reconcile with one more model call. -/
def chatPipeline (env : ChatEnv) (messages : List Msg) (new_message : String) :
    Exc String := do
  let _ ← env.kuzuStream messages
  let kuzuFinal ← env.kuzuInvoke messages
  let kuzu_response := answerOf kuzuFinal
  let _ ← env.sqliteStream messages
  let sqliteFinal ← env.sqliteInvoke messages
  let sqlite_response := answerOf sqliteFinal
  let result ← env.reconcile
    (messages ++ [Msg.human (reconcilePrompt new_message kuzu_response sqlite_response)])
  pure result.trim

/-- Embedding of `chat_with_llm` (`app.py` lines 112-148): convert the history,
run the pipeline, and catch any exception as
`{"response": f"Error occurred: {e}"}`.  The returned string is the
`response` field of the HTTP reply. -/
def chat_with_llm (env : ChatEnv) (conversation : List RoleMsg)
    (new_message : String) : String :=
  let messages := convertMessages conversation
  match chatPipeline env messages new_message with
  | .ok r => r
  | .error e => "Error occurred: " ++ e

end AppPy

/-! ## Claims -/

/-- C2: for every input query string, `run_sql` never propagates an
exception to its caller: if execution succeeds and the query returns
rows it yields the fetched row set, if execution succeeds with no
projection it yields the fixed confirmation string
"Query executed successfully.", and if the underlying engine raises any
exception it yields a formatted error string instead of throwing
(`run_sql` is a total function into `RunSqlRes`, so no outcome is a
raised exception). -/
theorem C2_run_sql_never_throws {Row : Type} (env : Main.SqlEnv Row)
    (query : String) :
    (∀ e, Main.run_sqlTry env query = .error e →
      Main.run_sql env query = Main.RunSqlRes.msg ("Error executing query: " ++ e)) ∧
    (∀ rs, env.connect = .ok () → env.execute query = .ok (some rs) →
      env.close = .ok () →
      Main.run_sql env query = Main.RunSqlRes.rows rs) ∧
    (env.connect = .ok () → env.execute query = .ok none → env.commit = .ok () →
      env.close = .ok () →
      Main.run_sql env query = Main.RunSqlRes.msg "Query executed successfully.") := by
  refine ⟨?_, ?_, ?_⟩
  · intro e he
    simp [Main.run_sql, he]
  · intro rs h1 h2 h3
    simp [Main.run_sql, Main.run_sqlTry, h1, h2, h3, Bind.bind, Except.bind,
      Pure.pure, Except.pure]
  · intro h1 h2 h3 h4
    simp [Main.run_sql, Main.run_sqlTry, h1, h2, h3, h4, Bind.bind, Except.bind,
      Pure.pure, Except.pure]

/-- A concrete SQLite engine: one projection query, one mutation query,
everything else raises a syntax error. -/
def sqlEnvW : Main.SqlEnv ℕ where
  connect := .ok ()
  execute := fun q =>
    if q = "SELECT 1" then .ok (some [1])
    else if q = "CREATE TABLE t (x);" then .ok none
    else .error "near \x22bogus\x22: syntax error"
  commit := .ok ()
  close := .ok ()
  showRows := fun rs => toString rs

theorem C2_run_sql_never_throws_witness :
    Main.run_sql sqlEnvW "SELECT 1" = Main.RunSqlRes.rows [1] ∧
    Main.run_sql sqlEnvW "CREATE TABLE t (x);" =
      Main.RunSqlRes.msg "Query executed successfully." ∧
    Main.run_sql sqlEnvW "bogus" =
      Main.RunSqlRes.msg "Error executing query: near \x22bogus\x22: syntax error" :=
  ⟨(C2_run_sql_never_throws sqlEnvW "SELECT 1").2.1 [1] rfl rfl rfl,
   (C2_run_sql_never_throws sqlEnvW "CREATE TABLE t (x);").2.2 rfl rfl rfl rfl,
   (C2_run_sql_never_throws sqlEnvW "bogus").1 "near \x22bogus\x22: syntax error" rfl⟩

/-- An introspection handle whose connect step raises. -/
def badIntroEnv : Main.IntrospectEnv where
  connect := .error "unable to open database file"
  listTables := .ok []
  tableInfo := fun _ => .ok []

/-- C9 counterexample: `get_db_schema` does throw.  On a store handle
whose open step raises, the exception propagates out of `get_db_schema`
instead of being returned as a textual description — there is no
`try`/`except` anywhere in either `get_db_schema` (`main.py` lines
18-37, `main_kuzu.py` lines 24-43). -/
theorem C9_get_db_schema_counterexample :
    Main.get_db_schema badIntroEnv = .error "unable to open database file" := by
  simp [Main.get_db_schema, badIntroEnv, Bind.bind, Except.bind]

/-- C9 amended: `get_db_schema` has no failure handling at all — any
exception raised by the store during introspection propagates uncaught
to the caller (shown for the connect and the table-listing step of the
SQLite version and for the open step of the Kuzu version); only when
every introspection step succeeds does it return the rendered
description. -/
theorem C9_get_db_schema_propagates (env : Main.IntrospectEnv)
    (kenv : MainKuzu.IntrospectEnv) :
    (∀ e, env.connect = .error e → Main.get_db_schema env = .error e) ∧
    (∀ e, env.connect = .ok () → env.listTables = .error e →
      Main.get_db_schema env = .error e) ∧
    (∀ e, kenv.openDb = .error e → MainKuzu.get_db_schema kenv = .error e) := by
  refine ⟨?_, ?_, ?_⟩
  · intro e he
    simp [Main.get_db_schema, he, Bind.bind, Except.bind]
  · intro e h1 h2
    simp [Main.get_db_schema, h1, h2, Bind.bind, Except.bind]
  · intro e he
    simp [MainKuzu.get_db_schema, he, Bind.bind, Except.bind]

/-- A Kuzu introspection handle whose open step raises. -/
def badKuzuIntroEnv : MainKuzu.IntrospectEnv where
  openDb := .error "Cannot open database"
  nodeTables := .ok []
  nodeProps := fun _ => .ok []
  relTables := .ok []

theorem C9_get_db_schema_propagates_witness :
    Main.get_db_schema badIntroEnv = .error "unable to open database file" ∧
    MainKuzu.get_db_schema badKuzuIntroEnv = .error "Cannot open database" :=
  ⟨(C9_get_db_schema_propagates badIntroEnv badKuzuIntroEnv).1
      "unable to open database file" rfl,
   (C9_get_db_schema_propagates badIntroEnv badKuzuIntroEnv).2.2
      "Cannot open database" rfl⟩

/-- Written from the claim: a history entry is forwarded iff its role
is exactly "user" or "assistant". -/
def keptRole (m : AppPy.RoleMsg) : Bool :=
  m.role == "user" || m.role == "assistant"

/-- Written from the claim: a kept user entry becomes a human message,
a kept assistant entry an assistant message. -/
def roleToMsg (m : AppPy.RoleMsg) : Msg :=
  if m.role == "user" then Msg.human m.content else Msg.ai m.content []

/-- C10: the messages forwarded to the two Agent Loops exclude the
first element of the supplied history entirely and exclude every
message whose role is neither "user" nor "assistant"; the remaining
user messages (as human messages) and assistant messages pass through
in their original relative order. -/
theorem C10_conversation_conversion (conversation : List AppPy.RoleMsg) :
    AppPy.convertMessages conversation =
      ((conversation.drop 1).filter keptRole).map roleToMsg := by
  unfold AppPy.convertMessages
  generalize conversation.drop 1 = l
  induction l with
  | nil => rfl
  | cons m t ih =>
      by_cases hu : m.role = "user"
      · simp [keptRole, roleToMsg, hu, ih]
      · by_cases ha : m.role = "assistant"
        · simp [keptRole, roleToMsg, hu, ha, ih]
        · simp [keptRole, roleToMsg, hu, ha, ih]

/-- C4: when the raw router output contains none of the three literal
tokens ADDRESS_SEARCH, GENERAL_QUERY, NORMAL_QUERY as a substring, the
dispatcher matches no branch and the tool call yields an empty/None
result (Python falls through the `if`/`elif` chain and returns `None`)
rather than an answer or an explicit error. -/
theorem C4_no_branch_returns_none (env : MainKuzu.ToolEnv) (question r : String)
    (hr : env.router (MainKuzu.routerPrompt question) = .ok r)
    (ho : env.openStore = .ok ())
    (h1 : strContains r "ADDRESS_SEARCH" = false)
    (h2 : strContains r "GENERAL_QUERY" = false)
    (h3 : strContains r "NORMAL_QUERY" = false) :
    MainKuzu.query_real_estate_database env question = .ok none := by
  simp [MainKuzu.query_real_estate_database, MainKuzu.dispatchBody, hr, ho,
    h1, h2, h3, Bind.bind, Except.bind, Pure.pure, Except.pure]

/-- A concrete collaborator environment whose router answers with a
string containing none of the three category tokens. -/
def envC4 : MainKuzu.ToolEnv where
  router := fun _ => .ok "UNCLASSIFIABLE"
  openStore := .ok ()
  fetchListings := .ok []
  embed := fun _ => .ok []
  targeted := fun _ => .ok []
  schemaIntro := .ok ""
  genQuery := fun _ => .ok ""
  runQuery := fun _ => .ok []
  chat := fun _ => .ok ""

theorem C4_no_branch_returns_none_witness :
    strContains "UNCLASSIFIABLE" "ADDRESS_SEARCH" = false ∧
    strContains "UNCLASSIFIABLE" "GENERAL_QUERY" = false ∧
    strContains "UNCLASSIFIABLE" "NORMAL_QUERY" = false ∧
    MainKuzu.query_real_estate_database envC4 "what is two plus two" = .ok none :=
  ⟨by decide, by decide, by decide,
   C4_no_branch_returns_none envC4 "what is two plus two" "UNCLASSIFIABLE"
     rfl rfl (by decide) (by decide) (by decide)⟩

/-- A collaborator environment whose router language-model call raises. -/
def envC3 : MainKuzu.ToolEnv where
  router := fun _ => .error "LLM provider down"
  openStore := .ok ()
  fetchListings := .ok []
  embed := fun _ => .ok []
  targeted := fun _ => .ok []
  schemaIntro := .ok ""
  genQuery := fun _ => .ok ""
  runQuery := fun _ => .ok []
  chat := fun _ => .ok ""

/-- C3 counterexample: an exception raised by a step inside the Tool
Dispatcher DOES propagate into the Agent Loop.  The intent-routing
language-model call (`main_kuzu.py` line 62) runs before the `try`
block starts on line 68, so its exception leaves
`query_real_estate_database` as a raised exception, not as an error
string. -/
theorem C3_dispatcher_counterexample :
    MainKuzu.query_real_estate_database envC3 "hi" = .error "LLM provider down" := by
  simp [MainKuzu.query_real_estate_database, envC3, Bind.bind, Except.bind]

/-- C3 amended: only exceptions raised inside the `try` block (the
branch bodies: listing fetch, embedding call, store queries, schema
introspection, query-synthesis and conversational model calls) are
caught and converted to the descriptive error string; the
intent-routing model call and the store open run before the `try`
(lines 62-66) and their exceptions propagate into the Agent Loop. -/
theorem C3_dispatcher_catches_inside_try (env : MainKuzu.ToolEnv)
    (question : String) :
    (∀ r e, env.router (MainKuzu.routerPrompt question) = .ok r →
      env.openStore = .ok () →
      MainKuzu.dispatchBody env question r = .error e →
      MainKuzu.query_real_estate_database env question =
        .ok (some ("An error occurred within the tool: " ++ e))) ∧
    (∀ r, env.router (MainKuzu.routerPrompt question) = .ok r →
      env.openStore = .ok () →
      ∃ o, MainKuzu.query_real_estate_database env question = .ok o) ∧
    (∀ e, env.router (MainKuzu.routerPrompt question) = .error e →
      MainKuzu.query_real_estate_database env question = .error e) := by
  refine ⟨?_, ?_, ?_⟩
  · intro r e hr ho hb
    simp [MainKuzu.query_real_estate_database, hr, ho, hb, Bind.bind, Except.bind]
  · intro r hr ho
    match hb : MainKuzu.dispatchBody env question r with
    | .ok o =>
        exact ⟨o, by
          simp [MainKuzu.query_real_estate_database, hr, ho, hb, Bind.bind, Except.bind]⟩
    | .error e =>
        exact ⟨some ("An error occurred within the tool: " ++ e), by
          simp [MainKuzu.query_real_estate_database, hr, ho, hb, Bind.bind, Except.bind]⟩
  · intro e he
    simp [MainKuzu.query_real_estate_database, he, Bind.bind, Except.bind]

/-- A collaborator environment whose generated-query execution raises
inside the GENERAL_QUERY branch. -/
def envC3w : MainKuzu.ToolEnv where
  router := fun _ => .ok "GENERAL_QUERY"
  openStore := .ok ()
  fetchListings := .ok []
  embed := fun _ => .ok []
  targeted := fun _ => .ok []
  schemaIntro := .ok "schema"
  genQuery := fun _ => .ok "MATCH (n) RETURN bogus"
  runQuery := fun _ => .error "Binder exception: Variable bogus is not in scope."
  chat := fun _ => .ok ""

theorem C3_dispatcher_catches_inside_try_witness :
    MainKuzu.dispatchBody envC3w "how many listings" "GENERAL_QUERY" =
      .error "Binder exception: Variable bogus is not in scope." ∧
    MainKuzu.query_real_estate_database envC3w "how many listings" =
      .ok (some ("An error occurred within the tool: " ++
        "Binder exception: Variable bogus is not in scope.")) :=
  ⟨rfl,
   (C3_dispatcher_catches_inside_try envC3w "how many listings").1
     "GENERAL_QUERY" "Binder exception: Variable bogus is not in scope."
     rfl rfl rfl⟩

/-- C5: on the ADDRESS_SEARCH branch with a non-empty listing table,
the tabular result returned by the dispatcher is the targeted query
result with the internal `l.address_embedding` column stripped before
formatting; no column of that name survives, every other column is
kept, and the kept columns stay in their original order (the stripped
table is a sublist of the original). -/
theorem C5_embedding_column_stripped (env : MainKuzu.ToolEnv)
    (question r : String) (cands : List (String × List ℝ)) (qemb : List ℝ)
    (t : MainKuzu.Table)
    (hr : env.router (MainKuzu.routerPrompt question) = .ok r)
    (ho : env.openStore = .ok ())
    (ha : strContains r "ADDRESS_SEARCH" = true)
    (hf : env.fetchListings = .ok cands)
    (hne : cands ≠ [])
    (he : env.embed question = .ok qemb)
    (ht : env.targeted (MainKuzu.best_match_address cands qemb) = .ok t) :
    MainKuzu.query_real_estate_database env question =
      .ok (some (MainKuzu.toMarkdown (MainKuzu.dropEmbeddingCol t))) ∧
    "l.address_embedding" ∉ (MainKuzu.dropEmbeddingCol t).map Prod.fst ∧
    (∀ c ∈ t, c.1 ≠ "l.address_embedding" → c ∈ MainKuzu.dropEmbeddingCol t) ∧
    (MainKuzu.dropEmbeddingCol t).Sublist t := by
  refine ⟨?_, ?_, ?_, List.filter_sublist t⟩
  · have hempty : cands.isEmpty = false := by
      simp [List.isEmpty_iff, hne]
    simp [MainKuzu.query_real_estate_database, MainKuzu.dispatchBody,
      MainKuzu.addressBranch, hr, ho, ha, hf, hempty, he, ht,
      Bind.bind, Except.bind, Pure.pure, Except.pure]
  · intro hmem
    obtain ⟨c, hc, hfst⟩ := List.mem_map.1 hmem
    have hprop := (List.mem_filter.1 hc).2
    rw [hfst] at hprop
    simp at hprop
  · intro c hc hcne
    exact List.mem_filter.2 ⟨hc, by simpa using hcne⟩

/-- A concrete ADDRESS_SEARCH environment: one listing, and a targeted
query result that carries the internal embedding column next to two
ordinary columns. -/
def envC5 : MainKuzu.ToolEnv where
  router := fun _ => .ok "ADDRESS_SEARCH"
  openStore := .ok ()
  fetchListings := .ok [("18 west 38th street", [])]
  embed := fun _ => .ok []
  targeted := fun _ => .ok
    [("l.address", ["18 west 38th street"]),
     ("l.address_embedding", ["[0.12, 0.34]"]),
     ("l.rent", ["95"])]
  schemaIntro := .ok ""
  genQuery := fun _ => .ok ""
  runQuery := fun _ => .ok []
  chat := fun _ => .ok ""

theorem C5_embedding_column_stripped_witness :
    (([("18 west 38th street", [])] : List (String × List ℝ)) ≠ []) ∧
    MainKuzu.query_real_estate_database envC5 "what about 18 west 38th street" =
      .ok (some (MainKuzu.toMarkdown (MainKuzu.dropEmbeddingCol
        [("l.address", ["18 west 38th street"]),
         ("l.address_embedding", ["[0.12, 0.34]"]),
         ("l.rent", ["95"])]))) ∧
    "l.address_embedding" ∉ (MainKuzu.dropEmbeddingCol
        [("l.address", ["18 west 38th street"]),
         ("l.address_embedding", ["[0.12, 0.34]"]),
         ("l.rent", ["95"])]).map Prod.fst := by
  have h := C5_embedding_column_stripped envC5 "what about 18 west 38th street"
    "ADDRESS_SEARCH" [("18 west 38th street", [])] []
    [("l.address", ["18 west 38th street"]),
     ("l.address_embedding", ["[0.12, 0.34]"]),
     ("l.rent", ["95"])]
    rfl rfl (by decide) rfl (by simp) rfl rfl
  exact ⟨by simp, h.1, h.2.1⟩

/-- C6: the Act step of both agents executes exactly the first
tool-call request of the last assistant message and ignores all later
ones, and the appended tool-result message is keyed by the first
request's call identifier: both results are expressed purely in terms
of `tc`, the head of the tool-call list, independently of `rest`. -/
theorem C6_first_tool_call_only {Row : Type} (env : Main.SqlEnv Row)
    (kenv : MainKuzu.ToolEnv) (messages : List Msg) (content : String)
    (tc : ToolCall) (rest : List ToolCall)
    (h : messages.getLast? = some (Msg.ai content (tc :: rest))) :
    Main.call_tool env messages =
      some (Msg.tool (Main.strOfRes env
        (if tc.name = "run_sql" then Main.run_sql env tc.args
         else Main.RunSqlRes.msg "Error: Unknown tool.")) tc.id) ∧
    MainKuzu.call_tool kenv messages =
      (MainKuzu.query_real_estate_database kenv tc.args).map
        (fun r => some (Msg.tool (MainKuzu.pyStr r) tc.id)) := by
  constructor
  · simp [Main.call_tool, h]
  · match hq : MainKuzu.query_real_estate_database kenv tc.args with
    | .ok r =>
        simp [MainKuzu.call_tool, h, hq, Bind.bind, Except.bind,
          Except.map, Pure.pure, Except.pure]
    | .error e =>
        simp [MainKuzu.call_tool, h, hq, Bind.bind, Except.bind,
          Except.map, Pure.pure, Except.pure]

/-- An assistant message carrying two tool-call requests. -/
def msgsC6 : List Msg :=
  [Msg.human "How many listings are there?",
   Msg.ai "" [⟨"run_sql", "SELECT 1", "call_1"⟩,
              ⟨"run_sql", "SELECT 2", "call_2"⟩]]

theorem C6_first_tool_call_only_witness :
    msgsC6.getLast? =
      some (Msg.ai "" [⟨"run_sql", "SELECT 1", "call_1"⟩,
                       ⟨"run_sql", "SELECT 2", "call_2"⟩]) ∧
    Main.call_tool sqlEnvW msgsC6 =
      some (Msg.tool (Main.strOfRes sqlEnvW
        (if ("run_sql" : String) = "run_sql" then Main.run_sql sqlEnvW "SELECT 1"
         else Main.RunSqlRes.msg "Error: Unknown tool.")) "call_1") ∧
    MainKuzu.call_tool envC4 msgsC6 =
      (MainKuzu.query_real_estate_database envC4 "SELECT 1").map
        (fun r => some (Msg.tool (MainKuzu.pyStr r) "call_1")) := by
  have h := C6_first_tool_call_only sqlEnvW envC4 msgsC6 ""
    ⟨"run_sql", "SELECT 1", "call_1"⟩ [⟨"run_sql", "SELECT 2", "call_2"⟩] rfl
  exact ⟨rfl, h.1, h.2⟩

/-- C8: the /chat aggregator never fails the caller: if any exception
is raised anywhere inside the pipeline (either inner agent loop run,
either store, or the reconciliation model call), the caller still
receives the well-formed, non-empty response string
"Error occurred: ..." with the exception detail inlined; on success the
reconciled answer is returned; and a loop that produces no messages
gets the fixed "No response generated." sentinel as its answer. -/
theorem C8_aggregator_never_fails (env : AppPy.ChatEnv)
    (conversation : List AppPy.RoleMsg) (new_message : String) :
    (∀ e, AppPy.chatPipeline env (AppPy.convertMessages conversation) new_message =
        .error e →
      AppPy.chat_with_llm env conversation new_message = "Error occurred: " ++ e ∧
      AppPy.chat_with_llm env conversation new_message ≠ "") ∧
    (∀ r, AppPy.chatPipeline env (AppPy.convertMessages conversation) new_message =
        .ok r →
      AppPy.chat_with_llm env conversation new_message = r) ∧
    AppPy.answerOf [] = "No response generated." := by
  refine ⟨?_, ?_, rfl⟩
  · intro e he
    have heq : AppPy.chat_with_llm env conversation new_message =
        "Error occurred: " ++ e := by
      simp [AppPy.chat_with_llm, he]
    refine ⟨heq, ?_⟩
    rw [heq]
    intro hc
    have hlen := congrArg String.length hc
    rw [String.length_append] at hlen
    have h16 : ("Error occurred: " : String).length = 16 := rfl
    have h0 : ("" : String).length = 0 := rfl
    rw [h16, h0] at hlen
    omega
  · intro r hr
    simp [AppPy.chat_with_llm, hr]

/-- A /chat collaborator environment in which the Kuzu inner loop
raises a provider failure. -/
def envC8 : AppPy.ChatEnv where
  kuzuStream := fun _ => .error "OpenAI API connection error"
  kuzuInvoke := fun _ => .ok []
  sqliteStream := fun _ => .ok ()
  sqliteInvoke := fun _ => .ok []
  reconcile := fun _ => .ok ""

theorem C8_aggregator_never_fails_witness :
    AppPy.chatPipeline envC8 (AppPy.convertMessages []) "hello" =
      .error "OpenAI API connection error" ∧
    AppPy.chat_with_llm envC8 [] "hello" =
      "Error occurred: OpenAI API connection error" ∧
    AppPy.chat_with_llm envC8 [] "hello" ≠ "" := by
  have h := (C8_aggregator_never_fails envC8 [] "hello").1
    "OpenAI API connection error" rfl
  exact ⟨rfl, h.1, h.2⟩

theorem steps_addSteps (o : LoopOutcome) (k : ℕ) :
    (o.addSteps k).steps = o.steps + k := by
  cases o <;> rfl

theorem isHitLimit_addSteps (o : LoopOutcome) (k : ℕ) :
    (o.addSteps k).isHitLimit = o.isHitLimit := by
  cases o <;> rfl

theorem runLoopAux_steps_le (agent toolNode : List Msg → List Msg) :
    ∀ (fuel : ℕ) (messages : List Msg),
      (runLoopAux agent toolNode fuel messages).steps ≤ fuel := by
  intro fuel
  induction fuel using Nat.strong_induction_on with
  | _ fuel ih =>
      intro messages
      match fuel with
      | 0 => simp [runLoopAux, LoopOutcome.steps]
      | 1 =>
          by_cases h : Main.should_continue (agent messages) <;>
            simp [runLoopAux, h, LoopOutcome.steps]
      | f + 2 =>
          by_cases h : Main.should_continue (agent messages)
          · have hrec := ih f (by omega) (toolNode (agent messages))
            simp only [runLoopAux, h, if_true, steps_addSteps]
            omega
          · simp [runLoopAux, h, LoopOutcome.steps]

theorem runLoopAux_always_tool (agent toolNode : List Msg → List Msg)
    (hA : ∀ ms, Main.should_continue (agent ms) = true) :
    ∀ (fuel : ℕ) (messages : List Msg),
      (runLoopAux agent toolNode fuel messages).isHitLimit = true ∧
      (runLoopAux agent toolNode fuel messages).steps = fuel := by
  intro fuel
  induction fuel using Nat.strong_induction_on with
  | _ fuel ih =>
      intro messages
      match fuel with
      | 0 => simp [runLoopAux, LoopOutcome.steps, LoopOutcome.isHitLimit]
      | 1 => simp [runLoopAux, hA, LoopOutcome.steps, LoopOutcome.isHitLimit]
      | f + 2 =>
          have hrec := ih f (by omega) (toolNode (agent messages))
          have he : runLoopAux agent toolNode (f + 2) messages =
              (runLoopAux agent toolNode f (toolNode (agent messages))).addSteps 2 := by
            simp [runLoopAux, hA messages]
          rw [he, steps_addSteps, isHitLimit_addSteps]
          exact ⟨hrec.1, by rw [hrec.2]⟩

/-- C7: for every model behavior (any `agent` node) and any input, the
bounded driver performs at most `recursion_limit` node executions and
stops; and when the model requests a tool call on every Decide step,
the run stops exactly at the limit (limit reached, step count equal to
the configured recursion limit) instead of running unbounded. -/
theorem C7_loop_bounded (agent toolNode : List Msg → List Msg)
    (recursion_limit : ℕ) (messages : List Msg) :
    (runLoop agent toolNode recursion_limit messages).steps ≤ recursion_limit ∧
    ((∀ ms, Main.should_continue (agent ms) = true) →
      (runLoop agent toolNode recursion_limit messages).isHitLimit = true ∧
      (runLoop agent toolNode recursion_limit messages).steps = recursion_limit) := by
  refine ⟨runLoopAux_steps_le agent toolNode recursion_limit messages, ?_⟩
  intro hA
  exact runLoopAux_always_tool agent toolNode hA recursion_limit messages

/-- A mock model that requests a tool call on every Decide step. -/
def alwaysToolLLM : List Msg → Msg :=
  fun _ => Msg.ai ""
    [⟨"query_real_estate_database", "How many listings are there?", "call_1"⟩]

/-- The agent node built from the mock model. -/
def agentC7 : List Msg → List Msg :=
  Main.call_model alwaysToolLLM "You are an assistant."

/-- A tool node that appends one tool-result message. -/
def toolC7 : List Msg → List Msg :=
  fun ms => ms ++ [Msg.tool "result" "call_1"]

theorem C7_loop_bounded_witness :
    (∀ ms, Main.should_continue (agentC7 ms) = true) ∧
    (runLoop agentC7 toolC7 10 [Msg.human "q"]).isHitLimit = true ∧
    (runLoop agentC7 toolC7 10 [Msg.human "q"]).steps = 10 := by
  have hA : ∀ ms, Main.should_continue (agentC7 ms) = true := by
    intro ms
    simp [agentC7, Main.call_model, Main.should_continue, alwaysToolLLM]
  exact ⟨hA, (C7_loop_bounded agentC7 toolC7 10 [Msg.human "q"]).2 hA⟩

/-- C1: for every non-empty candidate table of entity embeddings, the
ADDRESS_SEARCH resolver selects the candidate whose embedding maximizes
cosine similarity (dot product divided by the product of L2 norms) with
the question embedding, breaking ties by first-occurrence order: the
selected index is in range, the returned address is the one at that
index, no candidate scores strictly higher than the selected one, and
every candidate before the selected one scores strictly lower. -/
theorem C1_similarity_resolver_argmax (cands : List (String × List ℝ))
    (q : List ℝ) (h : cands ≠ []) :
    argmaxIdx (cands.map (fun c => cosSim c.2 q)) < cands.length ∧
    MainKuzu.best_match_address cands q =
      (cands.getD (argmaxIdx (cands.map (fun c => cosSim c.2 q))) ("", [])).1 ∧
    (∀ j, j < cands.length →
      cosSim (cands.getD j ("", [])).2 q ≤
        cosSim (cands.getD (argmaxIdx (cands.map (fun c => cosSim c.2 q))) ("", [])).2 q) ∧
    (∀ j, j < argmaxIdx (cands.map (fun c => cosSim c.2 q)) →
      cosSim (cands.getD j ("", [])).2 q <
        cosSim (cands.getD (argmaxIdx (cands.map (fun c => cosSim c.2 q))) ("", [])).2 q) := by
  have hmne : cands.map (fun c => cosSim c.2 q) ≠ [] := by
    simpa using h
  have hlen : (cands.map (fun c => cosSim c.2 q)).length = cands.length := by
    simp
  have hia : argmaxIdx (cands.map (fun c => cosSim c.2 q)) <
      (cands.map (fun c => cosSim c.2 q)).length := argmaxIdx_lt_length hmne
  have hi : argmaxIdx (cands.map (fun c => cosSim c.2 q)) < cands.length := by
    omega
  have key : ∀ (j : ℕ) (hj : j < cands.length),
      cosSim (cands.getD j ("", [])).2 q =
        (cands.map (fun c => cosSim c.2 q)).get ⟨j, by omega⟩ := by
    intro j hj
    rw [List.getD_eq_getElem _ _ hj]
    simp
  refine ⟨hi, rfl, ?_, ?_⟩
  · intro j hj
    rw [key j hj, key _ hi]
    exact getElem_le_getElem_argmaxIdx (by omega) hmne
  · intro j hj
    have hjl : j < cands.length := by omega
    rw [key j hjl, key _ hi]
    exact getElem_lt_getElem_argmaxIdx (by omega) hmne hj

/-- The two candidates of the worked example in the claim. -/
noncomputable def exCands : List (String × List ℝ) :=
  [("addr one", [1, 0]), ("addr two", [0, 1])]

/-- The question embedding of the worked example in the claim. -/
noncomputable def exQ : List ℝ := [9/10, 1/10]

theorem exQ_cosSim_lt :
    cosSim ((0:ℝ) :: 1 :: []) exQ < cosSim ((1:ℝ) :: 0 :: []) exQ := by
  have hd : dot exQ exQ = 82/100 := by
    norm_num [dot, exQ]
  have hl1 : l2norm ((1:ℝ) :: 0 :: []) = 1 := by
    have h1 : dot ((1:ℝ) :: 0 :: []) ((1:ℝ) :: 0 :: []) = 1 := by norm_num [dot]
    rw [l2norm, h1, Real.sqrt_one]
  have hl2 : l2norm ((0:ℝ) :: 1 :: []) = 1 := by
    have h1 : dot ((0:ℝ) :: 1 :: []) ((0:ℝ) :: 1 :: []) = 1 := by norm_num [dot]
    rw [l2norm, h1, Real.sqrt_one]
  have hlq : l2norm exQ = Real.sqrt (82/100) := by
    rw [l2norm, hd]
  have hd1 : dot ((1:ℝ) :: 0 :: []) exQ = 9/10 := by norm_num [dot, exQ]
  have hd2 : dot ((0:ℝ) :: 1 :: []) exQ = 1/10 := by norm_num [dot, exQ]
  have hs : (0:ℝ) < Real.sqrt (82/100) := Real.sqrt_pos.2 (by norm_num)
  rw [cosSim, cosSim, hd1, hd2, hl1, hl2, hlq, one_mul]
  gcongr
  norm_num

theorem C1_similarity_resolver_argmax_witness :
    exCands ≠ [] ∧
    MainKuzu.best_match_address exCands exQ = "addr one" := by
  have hne : exCands ≠ [] := by simp [exCands]
  have h := C1_similarity_resolver_argmax exCands exQ hne
  have hlen : exCands.length = 2 := by simp [exCands]
  have hi2 : argmaxIdx (exCands.map (fun c => cosSim c.2 exQ)) < 2 := by
    have := h.1
    omega
  have hi0 : argmaxIdx (exCands.map (fun c => cosSim c.2 exQ)) = 0 := by
    by_contra hne0
    have hi1 : argmaxIdx (exCands.map (fun c => cosSim c.2 exQ)) = 1 := by omega
    have hlt := h.2.2.2 0 (by omega)
    rw [hi1] at hlt
    have hlt' : cosSim ((1:ℝ) :: 0 :: []) exQ < cosSim ((0:ℝ) :: 1 :: []) exQ := by
      simpa [exCands, List.getD] using hlt
    exact absurd hlt' (not_lt.2 (le_of_lt exQ_cosSim_lt))
  refine ⟨hne, ?_⟩
  rw [h.2.1, hi0]
  simp [exCands, List.getD]

end VoiceRag
